import Mathlib

/-!
Shallow embedding of the tick-driven scheduling and retry core of the
mof-bot agent: the poster unit (agent.py) and the replier unit
(cores/reply.py).  Timestamps are integers counting seconds since an
arbitrary epoch; a Python timedelta of m minutes is m * 60 seconds.
External collaborators (content generation, tweet delivery, timeline
fetching, the random delay sample) enter as oracle arguments; an
exception raised by a collaborator is modelled as a result value of the
corresponding oracle.  Whether DEBUGGING is set enters as a boolean
argument dbg; the claims concern production mode, dbg = false.
-/

namespace MofBot

/-- Outcome of a call to send_tweet in agent.py as observed by execute:
the call either returns, or raises tweepy TooManyRequests, another
TweepyException, or an arbitrary exception (the three except arms of
agent.py lines 153 to 164). -/
inductive PosterSendResult where
  | success
  | tooManyRequests (msg : String)
  | tweepyError (msg : String)
  | unexpected (msg : String)
  deriving DecidableEq

/-- ScheduledEvent from agent.py lines 107 to 122.  The field defaults
mirror the constructor defaults; there is no retry counter field in the
source class. -/
structure ScheduledEvent where
  event_time : Int
  description : String := ""
  completed : Bool := false
  content : Option String := none
  backoff_time : Int := 0
  deriving DecidableEq

/-- ScheduledEvent.apply_backoff from agent.py lines 115 to 122:
backoff_time becomes 5 when it was 0 and doubles otherwise, and
event_time is advanced by the new backoff (relative to the previous
event_time, not to the wall clock). -/
def ScheduledEvent.apply_backoff (e : ScheduledEvent) : ScheduledEvent :=
  let b : Int := if e.backoff_time = 0 then 5 else e.backoff_time * 2
  { e with backoff_time := b, event_time := e.event_time + b * 60 }

/-- Python truthiness of the content field: None and the empty string
are falsy (the source tests it with `if not event.content`). -/
def contentTruthy : Option String → Bool
  | none => false
  | some s => !(s == "")

/-- The string carried by a truthy content value. -/
def contentStr : Option String → String
  | none => ""
  | some s => s

/-- Result of processing one ScheduledEvent inside the loop of execute:
the mutated event, the (possibly updated) previous_post global, and
whether a delivery attempt was made (the try block of lines 144 to 164
was entered). -/
structure PosterStep where
  event : ScheduledEvent
  prev : String
  attempted : Bool
  deriving DecidableEq

/-- One iteration of the event loop in execute (agent.py lines 134 to
164).  gen is create_tweet_content as a function of previous_post
(returning none on generation failure, line 195); send is the outcome of
send_tweet on the given content.  In debug mode send_tweet is skipped
and the success path runs. -/
def processEvent (dbg : Bool) (now : Int) (gen : String → Option String)
    (send : String → PosterSendResult) (prev : String) (e : ScheduledEvent) :
    PosterStep :=
  if e.completed then { event := e, prev := prev, attempted := false }
  else
    let e1 := if contentTruthy e.content then e else { e with content := gen prev }
    if e1.event_time ≤ now ∧ contentTruthy e1.content = true then
      match (if dbg then PosterSendResult.success else send (contentStr e1.content)) with
      | PosterSendResult.success =>
          { event := { e1 with completed := true, backoff_time := 0 },
            prev := contentStr e1.content, attempted := true }
      | PosterSendResult.tooManyRequests _ =>
          { event := e1.apply_backoff, prev := prev, attempted := true }
      | PosterSendResult.tweepyError _ =>
          { event := e1.apply_backoff, prev := prev, attempted := true }
      | PosterSendResult.unexpected _ =>
          { event := e1.apply_backoff, prev := prev, attempted := true }
    else { event := e1, prev := prev, attempted := false }

/-- The event loop of execute over the whole scheduler_list, threading
previous_post through and counting delivery attempts.  The loop never
adds or removes events. -/
def processEvents (dbg : Bool) (now : Int) (gen : String → Option String)
    (send : String → PosterSendResult) :
    List ScheduledEvent → String → List ScheduledEvent × String × Nat
  | [], prev => ([], prev, 0)
  | e :: rest, prev =>
    let r := processEvent dbg now gen send prev e
    let p := processEvents dbg now gen send rest r.prev
    (r.event :: p.1, p.2.1, (if r.attempted then 1 else 0) + p.2.2)

/-- prepare_tweet_for_scheduling from agent.py lines 170 to 180.  sample
is the integer truncation of the normal draw np.random.normal(25, 10);
the delay is clamped to the interval from 5 to 80 minutes, overridden to
1 minute in debug mode. -/
def prepare_tweet_for_scheduling (dbg : Bool) (now : Int) (sample : Int) :
    ScheduledEvent :=
  let d0 : Int := max 5 (min 80 sample)
  let d : Int := if dbg then 1 else d0
  { event_time := now + d * 60, description := "Scheduled tweet post" }

/-- The poster unit state: the module-level scheduler_list and
previous_post globals of agent.py. -/
structure PosterState where
  scheduler_list : List ScheduledEvent
  previous_post : String := ""
  deriving DecidableEq

/-- execute from agent.py lines 128 to 168: process every scheduled
event, then, when no non-completed event remains, append one new event
via prepare_tweet_for_scheduling.  Also returns the number of delivery
attempts made during the tick. -/
def execute (dbg : Bool) (now : Int) (gen : String → Option String)
    (send : String → PosterSendResult) (sample : Int) (st : PosterState) :
    PosterState × Nat :=
  let p := processEvents dbg now gen send st.scheduler_list st.previous_post
  if p.1.any (fun e => !e.completed) then
    ({ scheduler_list := p.1, previous_post := p.2.1 }, p.2.2)
  else
    ({ scheduler_list := p.1 ++ [prepare_tweet_for_scheduling dbg now sample],
       previous_post := p.2.1 }, p.2.2)

/-- Outcome of the delivery attempt for one reply (_send_reply together
with the except arms of reply.py lines 227 to 235): success, tweepy
TooManyRequests, or any other exception with its message. -/
inductive ReplySendResult where
  | success
  | tooManyRequests
  | failure (msg : String)
  deriving DecidableEq

/-- ReplyEvent from reply.py lines 30 to 41, with the dataclass
defaults.  content is optional because _generate_reply_content returns
None on failure. -/
structure ReplyEvent where
  target_account : String
  tweet_id : String
  content : Option String
  scheduled_time : Int
  original_tweet_text : String
  completed : Bool := false
  last_error : Option String := none
  retries : Nat := 0
  max_retries : Nat := 3
  backoff_time : Int := 0
  deriving DecidableEq

/-- ReplyEvent.apply_backoff from reply.py lines 43 to 50: backoff_time
becomes 5 when it was 0 and doubles otherwise, scheduled_time becomes
now plus the new backoff, and retries is incremented. -/
def ReplyEvent.apply_backoff (now : Int) (e : ReplyEvent) : ReplyEvent :=
  let b : Int := if e.backoff_time = 0 then 5 else e.backoff_time * 2
  { e with backoff_time := b, scheduled_time := now + b * 60,
           retries := e.retries + 1 }

/-- Result of processing one ReplyEvent in _process_scheduled_replies:
the mutated event, whether it stays in scheduled_replies, whether a
delivery attempt was made, and an exception escaping the loop body (the
ValueError a second list.remove of the same event would raise). -/
structure ReplyStep where
  event : ReplyEvent
  kept : Bool
  attempted : Bool
  err : Option String
  deriving DecidableEq

/-- One iteration of _process_scheduled_replies (reply.py lines 219 to
237) for a single event.  A due, non-completed event is attempted; on
success it is marked completed and removed; on TooManyRequests backoff
is applied; on any other exception only last_error is recorded; finally
an event whose retries reached max_retries is removed.  On the success
path that final check would call remove on an already removed event,
raising ValueError. -/
def processReplyEvent (dbg : Bool) (now : Int)
    (send : ReplyEvent → ReplySendResult) (e : ReplyEvent) : ReplyStep :=
  if e.completed = false ∧ e.scheduled_time ≤ now then
    match (if dbg then ReplySendResult.success else send e) with
    | ReplySendResult.success =>
        let e1 := { e with completed := true }
        if e1.max_retries ≤ e1.retries then
          { event := e1, kept := false, attempted := true,
            err := some "ValueError: remove on missing element" }
        else { event := e1, kept := false, attempted := true, err := none }
    | ReplySendResult.tooManyRequests =>
        let e1 := e.apply_backoff now
        if e1.max_retries ≤ e1.retries then
          { event := e1, kept := false, attempted := true, err := none }
        else { event := e1, kept := true, attempted := true, err := none }
    | ReplySendResult.failure msg =>
        let e1 := { e with last_error := some msg }
        if e1.max_retries ≤ e1.retries then
          { event := e1, kept := false, attempted := true, err := none }
        else { event := e1, kept := true, attempted := true, err := none }
  else { event := e, kept := true, attempted := false, err := none }

/-- _process_scheduled_replies over the whole list (iterating a copy
while removing from the live list): returns the resulting list, the
number of delivery attempts, and the first escaping exception, after
which the remaining events are left untouched. -/
def processReplies (dbg : Bool) (now : Int)
    (send : ReplyEvent → ReplySendResult) :
    List ReplyEvent → List ReplyEvent × Nat × Option String
  | [] => ([], 0, none)
  | e :: rest =>
    let r := processReplyEvent dbg now send e
    match r.err with
    | some msg =>
        ((if r.kept then [r.event] else []) ++ rest,
         (if r.attempted then 1 else 0), some msg)
    | none =>
        let p := processReplies dbg now send rest
        ((if r.kept then [r.event] else []) ++ p.1,
         (if r.attempted then 1 else 0) + p.2.1, p.2.2)

/-- The Python expression max(r.scheduled_time for r in replies), which
is only evaluated on a non-empty list (reply.py line 197). -/
def maxScheduledTime : List ReplyEvent → Option Int
  | [] => none
  | r :: rs => some (rs.foldl (fun acc x => max acc x.scheduled_time) r.scheduled_time)

/-- _schedule_reply from reply.py lines 193 to 215: the slot is the
latest already scheduled time plus reply_interval seconds when replies
are pending, and now plus 60 seconds otherwise; content is generated
eagerly here, once, via rgen (modelling _generate_reply_content applied
to the tweet text and account). -/
def scheduleReply (reply_interval : Int) (now : Int)
    (rgen : String → String → Option String) (replies : List ReplyEvent)
    (account : String) (tweetId : String) (tweetText : String) :
    List ReplyEvent :=
  let schedule_time : Int :=
    match maxScheduledTime replies with
    | some last => last + reply_interval
    | none => now + 60
  replies ++ [{ target_account := account, tweet_id := tweetId,
                content := rgen tweetText account,
                scheduled_time := schedule_time,
                original_tweet_text := tweetText }]

/-- Lookup in the last_tweets dict, modelled as an association list. -/
def lookupAccount : List (String × String) → String → Option String
  | [], _ => none
  | (k, v) :: rest, a => if k = a then some v else lookupAccount rest a

/-- Assignment last_tweets[account] = id on the association list. -/
def updateAccount : List (String × String) → String → String → List (String × String)
  | [], a, v => [(a, v)]
  | (k, w) :: rest, a, v =>
    if k = a then (a, v) :: rest else (k, w) :: updateAccount rest a v

/-- The latest tweet observed for an account. -/
structure Tweet where
  id : String
  text : String
  deriving DecidableEq

/-- Outcome of fetching the latest tweet of one account inside
_check_new_tweets: a latest tweet (or none when the user or data is
empty, which the source skips with continue), a TooManyRequests
exception (which breaks out of the account loop), or any other
exception (which moves on to the next account). -/
inductive FetchResult where
  | ok (latest : Option Tweet)
  | tooManyRequests
  | error (msg : String)
  deriving DecidableEq

/-- The new-tweet test and its consequences for one account
(reply.py lines 181 to 185): a reply is scheduled and last_tweets
updated exactly when the account has no recorded id or the latest id
differs from the recorded one. -/
def checkAccountStep (reply_interval now : Int)
    (rgen : String → String → Option String) (lt : List (String × String))
    (reps : List ReplyEvent) (account : String) (t : Tweet) :
    List (String × String) × List ReplyEvent :=
  if lookupAccount lt account = some t.id then (lt, reps)
  else (updateAccount lt account t.id,
        scheduleReply reply_interval now rgen reps account t.id t.text)

/-- _check_new_tweets from reply.py lines 134 to 191: iterate over the
target accounts, fetching each account's latest tweet through the fetch
oracle. -/
def checkNewTweetsAux (reply_interval now : Int)
    (rgen : String → String → Option String) (fetch : String → FetchResult) :
    List String → List (String × String) → List ReplyEvent →
    List (String × String) × List ReplyEvent
  | [], lt, reps => (lt, reps)
  | a :: rest, lt, reps =>
    match fetch a with
    | FetchResult.tooManyRequests => (lt, reps)
    | FetchResult.error _ => checkNewTweetsAux reply_interval now rgen fetch rest lt reps
    | FetchResult.ok none => checkNewTweetsAux reply_interval now rgen fetch rest lt reps
    | FetchResult.ok (some t) =>
      let p := checkAccountStep reply_interval now rgen lt reps a t
      checkNewTweetsAux reply_interval now rgen fetch rest p.1 p.2

/-- The replier unit state (the fields of ReplyCore that the tick logic
touches), plus the record of errors the tick handler has logged. -/
structure ReplierState where
  target_accounts : List String
  last_tweets : List (String × String)
  scheduled_replies : List ReplyEvent
  check_interval : Int
  reply_interval : Int
  last_check_time : Option Int
  tick_errors_logged : List String
  deriving DecidableEq

/-- The guard at reply.py lines 123 to 124: check when last_check_time
is unset or at least check_interval seconds old. -/
def shouldCheck (now : Int) (last : Option Int) (interval : Int) : Bool :=
  match last with
  | none => true
  | some t => decide (interval ≤ now - t)

/-- The body of ReplyCore._tick (inside its try): conditionally check
for new tweets, then process scheduled replies.  The second component
is the exception escaping the body, if any. -/
def replyTickBody (dbg : Bool) (now : Int) (fetch : String → FetchResult)
    (rgen : String → String → Option String)
    (send : ReplyEvent → ReplySendResult) (st : ReplierState) :
    ReplierState × Option String :=
  let st1 :=
    if shouldCheck now st.last_check_time st.check_interval then
      let p := checkNewTweetsAux st.reply_interval now rgen fetch
          st.target_accounts st.last_tweets st.scheduled_replies
      { st with last_tweets := p.1, scheduled_replies := p.2,
                last_check_time := some now }
    else st
  let q := processReplies dbg now send st1.scheduled_replies
  ({ st1 with scheduled_replies := q.1 }, q.2.2)

/-- ReplyCore._tick from reply.py lines 117 to 132: the body runs under
a try whose except arm logs the exception; no exception leaves _tick. -/
def replyTick (dbg : Bool) (now : Int) (fetch : String → FetchResult)
    (rgen : String → String → Option String)
    (send : ReplyEvent → ReplySendResult) (st : ReplierState) :
    ReplierState × Option String :=
  let p := replyTickBody dbg now fetch rgen send st
  match p.2 with
  | some e =>
    ({ p.1 with tick_errors_logged := p.1.tick_errors_logged ++ [e] }, none)
  | none => (p.1, none)

/-- Test fixture: a delivery oracle that always raises a generic
TweepyException. -/
def alwaysFailSend : String → PosterSendResult :=
  fun _ => PosterSendResult.tweepyError "boom"

/-- Test fixture: a content generator that always yields "x". -/
def genConstX : String → Option String := fun _ => some "x"

/-- Test fixture: a poster registry holding one fresh event due at time
0 with no content yet. -/
def onePendingPoster : PosterState := { scheduler_list := [{ event_time := 0 }] }

/-- Test fixture: one poster tick at wall clock 1000000 in production
mode with failing delivery. -/
def failingPosterTick (st : PosterState) : PosterState × Nat :=
  execute false 1000000 genConstX alwaysFailSend 25 st

/-- Test fixture: a reply event whose retries already equal
max_retries. -/
def exhaustedReply : ReplyEvent :=
  { target_account := "a", tweet_id := "1", content := some "c",
    scheduled_time := 0, original_tweet_text := "o", retries := 3 }

/-- Test fixture: a replier state holding the exhausted reply, between
timeline checks. -/
def exhaustedReplierState : ReplierState :=
  { target_accounts := [], last_tweets := [], scheduled_replies := [exhaustedReply],
    check_interval := 5400, reply_interval := 600, last_check_time := some 0,
    tick_errors_logged := [] }

/-- The poster event loop never adds or removes events: the output list
has the length of the input list. -/
theorem processEvents_length (dbg : Bool) (now : Int) (gen : String → Option String)
    (send : String → PosterSendResult) :
    ∀ (l : List ScheduledEvent) (prev : String),
      (processEvents dbg now gen send l prev).1.length = l.length := by
  intro l
  induction l with
  | nil => intro prev; rfl
  | cons e rest ih =>
    intro prev
    simp only [processEvents, List.length_cons]
    rw [ih]

/-- When every event in the registry is completed, the poster event
loop changes nothing, touches previous_post not at all, and attempts no
delivery. -/
theorem processEvents_all_completed (dbg : Bool) (now : Int)
    (gen : String → Option String) (send : String → PosterSendResult) :
    ∀ (l : List ScheduledEvent) (prev : String), (∀ e ∈ l, e.completed = true) →
      processEvents dbg now gen send l prev = (l, prev, 0) := by
  intro l
  induction l with
  | nil => intro prev _; rfl
  | cons e rest ih =>
    intro prev h
    have he : e.completed = true := h e (by simp)
    have hr : ∀ x ∈ rest, x.completed = true := fun x hx => h x (by simp [hx])
    simp [processEvents, processEvent, he, ih prev hr]

/-- The fold computing the Python max over scheduled times dominates
its initial accumulator. -/
theorem foldl_max_ge_init (rs : List ReplyEvent) :
    ∀ a : Int, a ≤ rs.foldl (fun acc x => max acc x.scheduled_time) a := by
  induction rs with
  | nil => intro a; simp
  | cons y ys ih =>
    intro a
    simp only [List.foldl_cons]
    exact le_trans (le_max_left _ _) (ih (max a y.scheduled_time))

/-- The fold computing the Python max over scheduled times dominates
every member of the list. -/
theorem foldl_max_ge_mem (rs : List ReplyEvent) :
    ∀ (a : Int), ∀ x ∈ rs,
      x.scheduled_time ≤ rs.foldl (fun acc x => max acc x.scheduled_time) a := by
  induction rs with
  | nil => intro a x hx; simp at hx
  | cons y ys ih =>
    intro a x hx
    simp only [List.foldl_cons]
    rcases List.mem_cons.mp hx with rfl | hx
    · exact le_trans (le_max_right _ _) (foldl_max_ge_init ys (max a x.scheduled_time))
    · exact ih (max a y.scheduled_time) x hx

/-- Looking up an account right after assigning it yields the assigned
id. -/
theorem lookupAccount_updateAccount (a v : String) :
    ∀ lt : List (String × String), lookupAccount (updateAccount lt a v) a = some v := by
  intro lt
  induction lt with
  | nil => simp [updateAccount, lookupAccount]
  | cons p rest ih =>
    obtain ⟨k, w⟩ := p
    by_cases h : k = a
    · simp [updateAccount, h, lookupAccount]
    · simp [updateAccount, h, lookupAccount, ih]

/-- C2 counterexample: at wall clock 6000 the poster applies its first
backoff to a due event created due at time 0; the new due time is 300
(the old due time plus the new 5 minute backoff), not now plus 5
minutes (6300), refuting the claim that both implementations set the
due time to now plus the new backoff. -/
theorem c2_backoff_counterexample :
    (processEvent false 6000 (fun _ => none)
        (fun _ => PosterSendResult.tweepyError "boom") ""
        { event_time := 0, content := some "c" }).event.event_time = 300 ∧
    ((300 : Int) ≠ 6000 + 5 * 60) := by decide

/-- C2 amended: both implementations turn a zero backoff into 5 minutes
and double a non-zero one, but only the replier reschedules to now plus
the new backoff and increments a retry counter; the poster advances the
previous due time by the new backoff and has no retry counter at all. -/
theorem c2_backoff_contract (now : Int) (e : ReplyEvent) (pe : ScheduledEvent) :
    (ReplyEvent.apply_backoff now e).backoff_time =
      (if e.backoff_time = 0 then 5 else e.backoff_time * 2) ∧
    (ReplyEvent.apply_backoff now e).scheduled_time =
      now + (ReplyEvent.apply_backoff now e).backoff_time * 60 ∧
    (ReplyEvent.apply_backoff now e).retries = e.retries + 1 ∧
    (ScheduledEvent.apply_backoff pe).backoff_time =
      (if pe.backoff_time = 0 then 5 else pe.backoff_time * 2) ∧
    (ScheduledEvent.apply_backoff pe).event_time =
      pe.event_time + (ScheduledEvent.apply_backoff pe).backoff_time * 60 := by
  refine ⟨rfl, rfl, rfl, rfl, rfl⟩

/-- C3 counterexample: a due poster event whose delivery succeeds is
marked completed but stays in scheduler_list, refuting the claim that a
successfully sent action is removed from its registry. -/
theorem c3_success_counterexample :
    (processEvents false 100 (fun _ => none) (fun _ => PosterSendResult.success)
        [{ event_time := 0, content := some "hello" }] "").1 =
      [{ event_time := 0, content := some "hello", completed := true }] := by decide

/-- C4 counterexample: a due reply whose delivery fails with a generic
(non rate limit) exception keeps backoff_time 0, retries 0 and its old
scheduled_time, gaining only a last_error record, refuting the claim
that every delivery failure takes the backoff path in the replier. -/
theorem c4_generic_failure_counterexample :
    processReplyEvent false 100 (fun _ => ReplySendResult.failure "boom")
        { target_account := "a", tweet_id := "1", content := some "c",
          scheduled_time := 0, original_tweet_text := "t" } =
      { event := { target_account := "a", tweet_id := "1", content := some "c",
                   scheduled_time := 0, original_tweet_text := "t",
                   last_error := some "boom" },
        kept := true, attempted := true, err := none } := by decide

/-- C5 counterexample: a due reply whose content is null (its
generation failed at scheduling time) is nevertheless attempted in
production mode, and its content stays null rather than being
regenerated, refuting the claim that no send attempt is made while
content is null and that generation is retried later. -/
theorem c5_null_content_counterexample :
    (processReplyEvent false 100 (fun _ => ReplySendResult.failure "bad request")
        { target_account := "a", tweet_id := "1", content := none,
          scheduled_time := 0, original_tweet_text := "t" }).attempted = true ∧
    (processReplyEvent false 100 (fun _ => ReplySendResult.failure "bad request")
        { target_account := "a", tweet_id := "1", content := none,
          scheduled_time := 0, original_tweet_text := "t" }).event.content = none := by
  decide

/-- C8 counterexample: a reply that failed delivery once (retries 1,
backoff 5) and then succeeds ends with completed true but retries still
1, refuting the claim that the retry count is reset to 0 after the
success. -/
theorem c8_no_reset_counterexample :
    (processReplyEvent false 1000 (fun _ => ReplySendResult.success)
        { target_account := "a", tweet_id := "1", content := some "c",
          scheduled_time := 0, original_tweet_text := "t", retries := 1,
          backoff_time := 5 }).event.completed = true ∧
    (processReplyEvent false 1000 (fun _ => ReplySendResult.success)
        { target_account := "a", tweet_id := "1", content := some "c",
          scheduled_time := 0, original_tweet_text := "t", retries := 1,
          backoff_time := 5 }).event.retries = 1 ∧
    (1 : Nat) ≠ 0 := by decide

/-- C1 counterexample: a poster event that fails delivery on three
consecutive ticks (one attempt each) is still in the registry,
uncompleted, and a fourth delivery attempt is made on the next tick;
agent.py has no retry counter and never removes events, refuting the
claim for the poster unit. -/
theorem c1_poster_counterexample :
    (failingPosterTick onePendingPoster).2 = 1 ∧
    (failingPosterTick (failingPosterTick onePendingPoster).1).2 = 1 ∧
    (failingPosterTick (failingPosterTick (failingPosterTick onePendingPoster).1).1).2 = 1 ∧
    (failingPosterTick (failingPosterTick (failingPosterTick
        onePendingPoster).1).1).1.scheduler_list =
      [{ event_time := 2100, description := "", completed := false,
         content := some "x", backoff_time := 20 }] ∧
    (failingPosterTick (failingPosterTick (failingPosterTick (failingPosterTick
        onePendingPoster).1).1).1).2 = 1 ∧
    (failingPosterTick (failingPosterTick (failingPosterTick (failingPosterTick
        onePendingPoster).1).1).1).1.scheduler_list.length = 1 := by decide

/-- C6: a production tick of the poster whose registry holds no
non-completed event appends exactly one new scheduled event, whose due
time lies between now plus 5 minutes and now plus 80 minutes inclusive
(the normal draw enters as the integer sample and is clamped to the
interval from 5 to 80 minutes). -/
theorem c6_idle_poster_schedules_one (now sample : Int)
    (gen : String → Option String) (send : String → PosterSendResult)
    (st : PosterState) (h : ∀ e ∈ st.scheduler_list, e.completed = true) :
    (execute false now gen send sample st).1.scheduler_list =
      st.scheduler_list ++ [prepare_tweet_for_scheduling false now sample] ∧
    (execute false now gen send sample st).1.scheduler_list.length =
      st.scheduler_list.length + 1 ∧
    now + 5 * 60 ≤ (prepare_tweet_for_scheduling false now sample).event_time ∧
    (prepare_tweet_for_scheduling false now sample).event_time ≤ now + 80 * 60 ∧
    (prepare_tweet_for_scheduling false now sample).completed = false := by
  have hp := processEvents_all_completed false now gen send st.scheduler_list
    st.previous_post h
  have hany : st.scheduler_list.any (fun e => !e.completed) = false := by
    rw [List.any_eq_false]
    intro e he
    simp [h e he]
  have hlist : (execute false now gen send sample st).1.scheduler_list =
      st.scheduler_list ++ [prepare_tweet_for_scheduling false now sample] := by
    simp [execute, hp, hany]
  have hev : (prepare_tweet_for_scheduling false now sample).event_time =
      now + (max 5 (min 80 sample)) * 60 := rfl
  refine ⟨hlist, ?_, ?_, ?_, rfl⟩
  · rw [hlist]; simp
  · rw [hev]
    have h5 : (5 : Int) ≤ max 5 (min 80 sample) := le_max_left _ _
    linarith
  · rw [hev]
    have h80 : max 5 (min 80 sample) ≤ 80 := max_le (by norm_num) (min_le_left _ _)
    linarith

/-- Witness for C6 at a concrete idle state. -/
theorem c6_witness :
    (execute false 0 (fun _ => none) (fun _ => PosterSendResult.success) 100
        { scheduler_list := [], previous_post := "" }).1.scheduler_list =
      ([] : List ScheduledEvent) ++ [prepare_tweet_for_scheduling false 0 100] ∧
    (execute false 0 (fun _ => none) (fun _ => PosterSendResult.success) 100
        { scheduler_list := [], previous_post := "" }).1.scheduler_list.length =
      ([] : List ScheduledEvent).length + 1 ∧
    (0 : Int) + 5 * 60 ≤ (prepare_tweet_for_scheduling false 0 100).event_time ∧
    (prepare_tweet_for_scheduling false 0 100).event_time ≤ 0 + 80 * 60 ∧
    (prepare_tweet_for_scheduling false 0 100).completed = false :=
  c6_idle_poster_schedules_one 0 100 (fun _ => none)
    (fun _ => PosterSendResult.success)
    { scheduler_list := [], previous_post := "" } (by simp)

/-- C7: in production the replier schedules a reply at now plus 60
seconds when nothing is pending, and otherwise at exactly the latest
pending slot plus 600 seconds (10 minutes), hence at least 10 minutes
after, and never earlier than, every already scheduled reply. -/
theorem c7_reply_slot_spacing (now : Int) (rgen : String → String → Option String)
    (replies : List ReplyEvent) (account tweetId tweetText : String) :
    (replies = [] →
      scheduleReply 600 now rgen replies account tweetId tweetText =
        replies ++ [{ target_account := account, tweet_id := tweetId,
                      content := rgen tweetText account,
                      scheduled_time := now + 60,
                      original_tweet_text := tweetText }]) ∧
    (replies ≠ [] → ∃ m,
      maxScheduledTime replies = some m ∧
      (∀ r ∈ replies, r.scheduled_time ≤ m) ∧
      scheduleReply 600 now rgen replies account tweetId tweetText =
        replies ++ [{ target_account := account, tweet_id := tweetId,
                      content := rgen tweetText account,
                      scheduled_time := m + 600,
                      original_tweet_text := tweetText }] ∧
      (∀ r ∈ replies, r.scheduled_time + 600 ≤ m + 600)) := by
  constructor
  · intro h; subst h; rfl
  · intro h
    cases replies with
    | nil => exact absurd rfl h
    | cons r rs =>
      refine ⟨_, rfl, ?_, rfl, ?_⟩
      · intro x hx
        rcases List.mem_cons.mp hx with rfl | hx
        · exact foldl_max_ge_init rs _
        · exact foldl_max_ge_mem rs _ x hx
      · intro x hx
        rcases List.mem_cons.mp hx with rfl | hx
        · exact add_le_add_right (foldl_max_ge_init rs _) 600
        · exact add_le_add_right (foldl_max_ge_mem rs _ x hx) 600

/-- Witness for C7 at a concrete non-empty pending list. -/
theorem c7_witness :
    ∃ m,
      maxScheduledTime [{ target_account := "a", tweet_id := "1",
                          content := some "c", scheduled_time := 500,
                          original_tweet_text := "t" }] = some m ∧
      (∀ r ∈ [({ target_account := "a", tweet_id := "1", content := some "c",
                 scheduled_time := 500,
                 original_tweet_text := "t" } : ReplyEvent)],
          r.scheduled_time ≤ m) ∧
      scheduleReply 600 0 (fun _ _ => some "r")
          [{ target_account := "a", tweet_id := "1", content := some "c",
             scheduled_time := 500, original_tweet_text := "t" }] "b" "2" "u" =
        [{ target_account := "a", tweet_id := "1", content := some "c",
           scheduled_time := 500, original_tweet_text := "t" }] ++
          [{ target_account := "b", tweet_id := "2", content := some "r",
             scheduled_time := m + 600, original_tweet_text := "u" }] ∧
      (∀ r ∈ [({ target_account := "a", tweet_id := "1", content := some "c",
                 scheduled_time := 500,
                 original_tweet_text := "t" } : ReplyEvent)],
          r.scheduled_time + 600 ≤ m + 600) :=
  (c7_reply_slot_spacing 0 (fun _ _ => some "r")
      [{ target_account := "a", tweet_id := "1", content := some "c",
         scheduled_time := 500, original_tweet_text := "t" }] "b" "2" "u").2
    (by decide)

/-- C9: no exception escapes ReplyCore tick: whatever the oracles and
the state do, the tick returns with no propagated error, and an
exception the body raised is recorded in the tick error log. -/
theorem c9_tick_swallows_exceptions (dbg : Bool) (now : Int)
    (fetch : String → FetchResult) (rgen : String → String → Option String)
    (send : ReplyEvent → ReplySendResult) (st : ReplierState) :
    (replyTick dbg now fetch rgen send st).2 = none ∧
    (∀ e, (replyTickBody dbg now fetch rgen send st).2 = some e →
      e ∈ (replyTick dbg now fetch rgen send st).1.tick_errors_logged) := by
  constructor
  · cases h : (replyTickBody dbg now fetch rgen send st).2 <;>
      simp [replyTick, h]
  · intro e he
    simp [replyTick, he]

/-- Witness for C9 at a state whose processing raises the internal
ValueError. -/
theorem c9_witness :
    (replyTick true 10 (fun _ => FetchResult.ok none) (fun _ _ => none)
        (fun _ => ReplySendResult.success) exhaustedReplierState).2 = none ∧
    "ValueError: remove on missing element" ∈
      (replyTick true 10 (fun _ => FetchResult.ok none) (fun _ _ => none)
        (fun _ => ReplySendResult.success)
        exhaustedReplierState).1.tick_errors_logged :=
  ⟨(c9_tick_swallows_exceptions true 10 (fun _ => FetchResult.ok none)
      (fun _ _ => none) (fun _ => ReplySendResult.success)
      exhaustedReplierState).1,
   (c9_tick_swallows_exceptions true 10 (fun _ => FetchResult.ok none)
      (fun _ _ => none) (fun _ => ReplySendResult.success)
      exhaustedReplierState).2
     "ValueError: remove on missing element" (by decide)⟩

/-- C10: an account with no recorded last tweet id always gets a reply
scheduled to whatever tweet is currently latest, and on later checks
any difference between the latest id and the recorded one (not only a
newer post) schedules a reply; in both cases the recorded id becomes
the latest id. -/
theorem c10_any_id_difference_triggers (reply_interval now : Int)
    (rgen : String → String → Option String) (lt : List (String × String))
    (reps : List ReplyEvent) (account : String) (t : Tweet) :
    (lookupAccount lt account = none →
      (∃ newE, (checkAccountStep reply_interval now rgen lt reps account t).2 =
          reps ++ [newE] ∧ newE.tweet_id = t.id ∧
          newE.target_account = account ∧ newE.original_tweet_text = t.text) ∧
      lookupAccount (checkAccountStep reply_interval now rgen lt reps account t).1
        account = some t.id) ∧
    (∀ old, lookupAccount lt account = some old → old ≠ t.id →
      (∃ newE, (checkAccountStep reply_interval now rgen lt reps account t).2 =
          reps ++ [newE] ∧ newE.tweet_id = t.id ∧
          newE.target_account = account ∧ newE.original_tweet_text = t.text) ∧
      lookupAccount (checkAccountStep reply_interval now rgen lt reps account t).1
        account = some t.id) := by
  constructor
  · intro h
    have hc : ¬ (lookupAccount lt account = some t.id) := by simp [h]
    constructor
    · simp only [checkAccountStep, if_neg hc]
      exact ⟨_, rfl, rfl, rfl, rfl⟩
    · simp only [checkAccountStep, if_neg hc]
      exact lookupAccount_updateAccount account t.id lt
  · intro old h hne
    have hc : ¬ (lookupAccount lt account = some t.id) := by simp [h, hne]
    constructor
    · simp only [checkAccountStep, if_neg hc]
      exact ⟨_, rfl, rfl, rfl, rfl⟩
    · simp only [checkAccountStep, if_neg hc]
      exact lookupAccount_updateAccount account t.id lt

/-- Witness for C10 at an account with no recorded id. -/
theorem c10_witness :
    (∃ newE, (checkAccountStep 600 0 (fun _ _ => some "r") [("x", "9")] []
        "a" { id := "101", text := "hello" }).2 = [] ++ [newE] ∧
      newE.tweet_id = ({ id := "101", text := "hello" } : Tweet).id ∧
      newE.target_account = "a" ∧
      newE.original_tweet_text = ({ id := "101", text := "hello" } : Tweet).text) ∧
    lookupAccount (checkAccountStep 600 0 (fun _ _ => some "r") [("x", "9")] []
        "a" { id := "101", text := "hello" }).1 "a" =
      some ({ id := "101", text := "hello" } : Tweet).id :=
  (c10_any_id_difference_triggers 600 0 (fun _ _ => some "r") [("x", "9")] []
      "a" { id := "101", text := "hello" }).1 (by decide)

/-- C1 amended: in the replier, a due reply whose rate limited failure
brings retries up to max_retries is dropped from scheduled_replies in
that same pass, after which no attempt can target it; the poster has no
retry counter and never removes events: a due event with failing
delivery is attempted and stays in the registry uncompleted, and the
poster event loop preserves the registry size unconditionally. -/
theorem c1_retry_exhaustion (now : Int) (send : ReplyEvent → ReplySendResult)
    (e : ReplyEvent) (gen : String → Option String)
    (psend : String → PosterSendResult) (pe : ScheduledEvent) (prev : String)
    (h1 : e.completed = false) (h2 : e.scheduled_time ≤ now)
    (h3 : send e = ReplySendResult.tooManyRequests)
    (h4 : e.max_retries ≤ e.retries + 1)
    (h5 : pe.completed = false) (h6 : contentTruthy pe.content = true)
    (h7 : pe.event_time ≤ now)
    (h8 : ∀ c, psend c ≠ PosterSendResult.success) :
    (processReplyEvent false now send e).kept = false ∧
    (processReplies false now send [e]).1 = [] ∧
    (processEvent false now gen psend prev pe).event.completed = false ∧
    (processEvent false now gen psend prev pe).attempted = true ∧
    (∀ (l : List ScheduledEvent) (p : String),
      (processEvents false now gen psend l p).1.length = l.length) := by
  have hstep : processReplyEvent false now send e =
      { event := e.apply_backoff now, kept := false, attempted := true,
        err := none } := by
    simp [processReplyEvent, ReplyEvent.apply_backoff, h1, h2, h3, h4]
  have hposter : ∀ m,
      psend (contentStr pe.content) = PosterSendResult.tooManyRequests m ∨
      psend (contentStr pe.content) = PosterSendResult.tweepyError m ∨
      psend (contentStr pe.content) = PosterSendResult.unexpected m →
      (processEvent false now gen psend prev pe).event.completed = false ∧
      (processEvent false now gen psend prev pe).attempted = true := by
    intro m hm
    rcases hm with hc | hc | hc <;>
      simp [processEvent, ScheduledEvent.apply_backoff, h5, h6, h7, hc]
  refine ⟨by rw [hstep], ?_, ?_, ?_, processEvents_length false now gen psend⟩
  · simp [processReplies, hstep]
  · cases hc : psend (contentStr pe.content) with
    | success => exact absurd hc (h8 _)
    | tooManyRequests m => exact (hposter m (Or.inl hc)).1
    | tweepyError m => exact (hposter m (Or.inr (Or.inl hc))).1
    | unexpected m => exact (hposter m (Or.inr (Or.inr hc))).1
  · cases hc : psend (contentStr pe.content) with
    | success => exact absurd hc (h8 _)
    | tooManyRequests m => exact (hposter m (Or.inl hc)).2
    | tweepyError m => exact (hposter m (Or.inr (Or.inl hc))).2
    | unexpected m => exact (hposter m (Or.inr (Or.inr hc))).2

/-- Witness for C1 amended at a concrete exhausting reply and a
concrete failing poster event. -/
theorem c1_witness :
    (processReplyEvent false 50 (fun _ => ReplySendResult.tooManyRequests)
        { target_account := "a", tweet_id := "1", content := some "c",
          scheduled_time := 0, original_tweet_text := "t", retries := 2,
          backoff_time := 10 }).kept = false ∧
    (processReplies false 50 (fun _ => ReplySendResult.tooManyRequests)
        [{ target_account := "a", tweet_id := "1", content := some "c",
           scheduled_time := 0, original_tweet_text := "t", retries := 2,
           backoff_time := 10 }]).1 = [] ∧
    (processEvent false 50 genConstX alwaysFailSend ""
        { event_time := 0, content := some "x" }).event.completed = false ∧
    (processEvent false 50 genConstX alwaysFailSend ""
        { event_time := 0, content := some "x" }).attempted = true ∧
    (∀ (l : List ScheduledEvent) (p : String),
      (processEvents false 50 genConstX alwaysFailSend l p).1.length =
        l.length) :=
  c1_retry_exhaustion 50 (fun _ => ReplySendResult.tooManyRequests)
    { target_account := "a", tweet_id := "1", content := some "c",
      scheduled_time := 0, original_tweet_text := "t", retries := 2,
      backoff_time := 10 }
    genConstX alwaysFailSend { event_time := 0, content := some "x" } ""
    (by decide) (by decide) rfl (by decide) (by decide) (by decide) (by decide)
    (fun c => by simp [alwaysFailSend])

/-- C3 amended: on a successful send both units set completed to true;
the replier removes the action from scheduled_replies while the poster
leaves it in scheduler_list (skipped thereafter because completed); the
poster stores the sent content in previous_post, the context handed to
the next content generation, while the replier keeps no previous post
context. -/
theorem c3_success_path (now : Int) (gen : String → Option String)
    (send : String → PosterSendResult) (prev : String)
    (e1 e2 : ScheduledEvent) (re : ReplyEvent)
    (rsend : ReplyEvent → ReplySendResult)
    (h1 : e1.completed = false) (h2 : contentTruthy e1.content = true)
    (h3 : e1.event_time ≤ now)
    (h4 : send (contentStr e1.content) = PosterSendResult.success)
    (h5 : e2.completed = false) (h6 : e2.content = none)
    (h7 : now < e2.event_time)
    (h8 : re.completed = false) (h9 : re.scheduled_time ≤ now)
    (h10 : rsend re = ReplySendResult.success)
    (h11 : re.retries < re.max_retries) :
    (processEvents false now gen send [e1, e2] prev).1 =
      [{ e1 with completed := true, backoff_time := 0 },
       { e2 with content := gen (contentStr e1.content) }] ∧
    (processEvents false now gen send [e1, e2] prev).2.1 =
      contentStr e1.content ∧
    (processReplyEvent false now rsend re).event.completed = true ∧
    (processReplyEvent false now rsend re).kept = false ∧
    (processReplies false now rsend [re]).1 = [] := by
  have hs1 : processEvent false now gen send prev e1 =
      { event := { e1 with completed := true, backoff_time := 0 },
        prev := contentStr e1.content, attempted := true } := by
    simp [processEvent, h1, h2, h3, h4]
  have hs2 : processEvent false now gen send (contentStr e1.content) e2 =
      { event := { e2 with content := gen (contentStr e1.content) },
        prev := contentStr e1.content, attempted := false } := by
    simp [processEvent, contentTruthy, h5, h6, not_le.mpr h7]
  have hs3 : processReplyEvent false now rsend re =
      { event := { re with completed := true }, kept := false,
        attempted := true, err := none } := by
    simp [processReplyEvent, h8, h9, h10, not_le.mpr h11]
  refine ⟨?_, ?_, by rw [hs3], by rw [hs3], by simp [processReplies, hs3]⟩
  · simp [processEvents, hs1, hs2]
  · simp [processEvents, hs1, hs2]

/-- Witness for C3 amended at concrete events. -/
theorem c3_witness :
    (processEvents false 50 genConstX (fun _ => PosterSendResult.success)
        [{ event_time := 0, content := some "c1" }, { event_time := 1000000 }]
        "").1 =
      [{ ({ event_time := 0, content := some "c1" } : ScheduledEvent) with
          completed := true, backoff_time := 0 },
       { ({ event_time := 1000000 } : ScheduledEvent) with
          content := genConstX (contentStr (some "c1")) }] ∧
    (processEvents false 50 genConstX (fun _ => PosterSendResult.success)
        [{ event_time := 0, content := some "c1" }, { event_time := 1000000 }]
        "").2.1 = contentStr (some "c1") ∧
    (processReplyEvent false 50 (fun _ => ReplySendResult.success)
        { target_account := "a", tweet_id := "1", content := some "c",
          scheduled_time := 0,
          original_tweet_text := "t" }).event.completed = true ∧
    (processReplyEvent false 50 (fun _ => ReplySendResult.success)
        { target_account := "a", tweet_id := "1", content := some "c",
          scheduled_time := 0, original_tweet_text := "t" }).kept = false ∧
    (processReplies false 50 (fun _ => ReplySendResult.success)
        [{ target_account := "a", tweet_id := "1", content := some "c",
           scheduled_time := 0, original_tweet_text := "t" }]).1 = [] :=
  c3_success_path 50 genConstX (fun _ => PosterSendResult.success) ""
    { event_time := 0, content := some "c1" } { event_time := 1000000 }
    { target_account := "a", tweet_id := "1", content := some "c",
      scheduled_time := 0, original_tweet_text := "t" }
    (fun _ => ReplySendResult.success)
    (by decide) (by decide) (by decide) rfl (by decide) rfl (by decide)
    (by decide) (by decide) rfl (by decide)

/-- C4 amended: in the poster all three delivery failure classes take
one backoff path and the event remains pending; in the replier only the
rate limited failure applies backoff and increments retries, while any
other delivery failure merely records last_error, leaving
scheduled_time, retries and backoff_time unchanged (the reply stays
pending and is re-attempted on the very next tick with no delay). -/
theorem c4_failure_paths (now : Int) (gen : String → Option String)
    (send : String → PosterSendResult) (prev : String) (pe : ScheduledEvent)
    (rsend : ReplyEvent → ReplySendResult) (e : ReplyEvent) (msg : String)
    (h1 : pe.completed = false) (h2 : contentTruthy pe.content = true)
    (h3 : pe.event_time ≤ now)
    (h4 : send (contentStr pe.content) ≠ PosterSendResult.success)
    (h5 : e.completed = false) (h6 : e.scheduled_time ≤ now)
    (h7 : e.retries + 1 < e.max_retries) :
    (processEvent false now gen send prev pe).event = pe.apply_backoff ∧
    (processEvent false now gen send prev pe).event.completed = false ∧
    (rsend e = ReplySendResult.tooManyRequests →
      processReplyEvent false now rsend e =
        { event := e.apply_backoff now, kept := true, attempted := true,
          err := none }) ∧
    (rsend e = ReplySendResult.failure msg →
      processReplyEvent false now rsend e =
        { event := { e with last_error := some msg }, kept := true,
          attempted := true, err := none }) := by
  have hpe : (processEvent false now gen send prev pe).event =
      pe.apply_backoff := by
    cases hc : send (contentStr pe.content) with
    | success => exact absurd hc h4
    | tooManyRequests m => simp [processEvent, h1, h2, h3, hc]
    | tweepyError m => simp [processEvent, h1, h2, h3, hc]
    | unexpected m => simp [processEvent, h1, h2, h3, hc]
  refine ⟨hpe, ?_, ?_, ?_⟩
  · rw [hpe]
    simpa [ScheduledEvent.apply_backoff] using h1
  · intro hc
    simp [processReplyEvent, ReplyEvent.apply_backoff, h5, h6, hc,
      Nat.not_le.mpr h7]
  · intro hc
    have h7b : ¬ (e.max_retries ≤ e.retries) := Nat.not_le.mpr (by omega)
    simp [processReplyEvent, h5, h6, hc, h7b]

/-- Witness for C4 amended at a concrete rate limited reply and a
concrete failing poster event. -/
theorem c4_witness :
    (processEvent false 50 genConstX alwaysFailSend ""
        { event_time := 0, content := some "x" }).event =
      ScheduledEvent.apply_backoff { event_time := 0, content := some "x" } ∧
    (processEvent false 50 genConstX alwaysFailSend ""
        { event_time := 0, content := some "x" }).event.completed = false ∧
    ((fun (_ : ReplyEvent) => ReplySendResult.tooManyRequests)
        { target_account := "a", tweet_id := "1", content := some "c",
          scheduled_time := 0, original_tweet_text := "t" } =
        ReplySendResult.tooManyRequests →
      processReplyEvent false 50 (fun _ => ReplySendResult.tooManyRequests)
          { target_account := "a", tweet_id := "1", content := some "c",
            scheduled_time := 0, original_tweet_text := "t" } =
        { event := ReplyEvent.apply_backoff 50
            { target_account := "a", tweet_id := "1", content := some "c",
              scheduled_time := 0, original_tweet_text := "t" },
          kept := true, attempted := true, err := none }) ∧
    ((fun (_ : ReplyEvent) => ReplySendResult.tooManyRequests)
        { target_account := "a", tweet_id := "1", content := some "c",
          scheduled_time := 0, original_tweet_text := "t" } =
        ReplySendResult.failure "boom" →
      processReplyEvent false 50 (fun _ => ReplySendResult.tooManyRequests)
          { target_account := "a", tweet_id := "1", content := some "c",
            scheduled_time := 0, original_tweet_text := "t" } =
        { event := { ({ target_account := "a", tweet_id := "1",
                        content := some "c", scheduled_time := 0,
                        original_tweet_text := "t" } : ReplyEvent) with
                     last_error := some "boom" },
          kept := true, attempted := true, err := none }) :=
  c4_failure_paths 50 genConstX alwaysFailSend ""
    { event_time := 0, content := some "x" }
    (fun _ => ReplySendResult.tooManyRequests)
    { target_account := "a", tweet_id := "1", content := some "c",
      scheduled_time := 0, original_tweet_text := "t" } "boom"
    (by decide) (by decide) (by decide) (by decide) (by decide) (by decide)
    (by decide)

/-- C5 amended: in the poster content is generated only when falsy
(null or empty) and a truthy content is never regenerated; with falsy
content no send is attempted; a failed generation leaves the event
entirely unchanged, so generation is retried on a later tick with no
backoff and no limit.  In the replier content is generated exactly
once, eagerly inside _schedule_reply; reply processing never touches
content, and a due reply is attempted regardless of null content. -/
theorem c5_content_generation (now : Int) (gen : String → Option String)
    (send : String → PosterSendResult) (prev : String) (pe pe2 : ScheduledEvent)
    (dbg : Bool) (rsend : ReplyEvent → ReplySendResult) (e : ReplyEvent)
    (ri : Int) (rgen : String → String → Option String)
    (replies : List ReplyEvent) (account tweetId tweetText : String)
    (h1 : contentTruthy pe.content = true)
    (h2 : pe2.completed = false) (h3 : pe2.content = none)
    (h4 : gen prev = none)
    (h5 : e.completed = false) (h6 : e.scheduled_time ≤ now) :
    (processEvent false now gen send prev pe).event.content = pe.content ∧
    processEvent false now gen send prev pe2 =
      { event := pe2, prev := prev, attempted := false } ∧
    (∃ newE, scheduleReply ri now rgen replies account tweetId tweetText =
        replies ++ [newE] ∧ newE.content = rgen tweetText account) ∧
    (processReplyEvent dbg now rsend e).event.content = e.content ∧
    (processReplyEvent false now rsend e).attempted = true := by
  refine ⟨?_, ?_, ⟨_, rfl, rfl⟩, ?_, ?_⟩
  · by_cases hc : pe.completed
    · simp [processEvent, hc]
    · cases hs : send (contentStr pe.content) with
      | success => simp [processEvent, hc, h1, hs, apply_ite,
          ScheduledEvent.apply_backoff]
      | tooManyRequests m => simp [processEvent, hc, h1, hs, apply_ite,
          ScheduledEvent.apply_backoff]
      | tweepyError m => simp [processEvent, hc, h1, hs, apply_ite,
          ScheduledEvent.apply_backoff]
      | unexpected m => simp [processEvent, hc, h1, hs, apply_ite,
          ScheduledEvent.apply_backoff]
  · obtain ⟨pt, pd, pc, pct, pb⟩ := pe2
    simp only [ScheduledEvent.mk.injEq] at h3 ⊢
    have hc2 : pc = false := h2
    subst h3
    subst hc2
    simp [processEvent, contentTruthy, h4]
  · unfold processReplyEvent
    split
    · split <;> (simp only []; split <;> rfl)
    · rfl
  · unfold processReplyEvent
    rw [if_pos ⟨h5, h6⟩]
    split <;> (simp only []; split <;> rfl)

/-- Witness for C5 amended at concrete events, with a generator that
fails. -/
theorem c5_witness :
    (processEvent false 10 (fun _ => none)
        (fun _ => PosterSendResult.success) ""
        { event_time := 0, content := some "p" }).event.content =
      ({ event_time := 0, content := some "p" } : ScheduledEvent).content ∧
    processEvent false 10 (fun _ => none)
        (fun _ => PosterSendResult.success) "" { event_time := 0 } =
      { event := { event_time := 0 }, prev := "", attempted := false } ∧
    (∃ newE, scheduleReply 600 10 (fun _ _ => none) [] "a" "1" "t" =
        [] ++ [newE] ∧ newE.content = (fun _ _ => none : String → String →
          Option String) "t" "a") ∧
    (processReplyEvent false 10 (fun _ => ReplySendResult.failure "x")
        { target_account := "a", tweet_id := "1", content := none,
          scheduled_time := 0, original_tweet_text := "t" }).event.content =
      ({ target_account := "a", tweet_id := "1", content := none,
         scheduled_time := 0,
         original_tweet_text := "t" } : ReplyEvent).content ∧
    (processReplyEvent false 10 (fun _ => ReplySendResult.failure "x")
        { target_account := "a", tweet_id := "1", content := none,
          scheduled_time := 0, original_tweet_text := "t" }).attempted =
      true :=
  c5_content_generation 10 (fun _ => none) (fun _ => PosterSendResult.success)
    "" { event_time := 0, content := some "p" } { event_time := 0 } false
    (fun _ => ReplySendResult.failure "x")
    { target_account := "a", tweet_id := "1", content := none,
      scheduled_time := 0, original_tweet_text := "t" }
    600 (fun _ _ => none) [] "a" "1" "t"
    (by decide) (by decide) (by decide) rfl (by decide) (by decide)

/-- Backoff trace of the poster: starting from a zero backoff, the
backoff after the k plus first consecutive failure is 5 * 2 ^ k
minutes. -/
theorem poster_backoff_trace (e : ScheduledEvent) (h : e.backoff_time = 0) :
    ∀ k : Nat,
      ((ScheduledEvent.apply_backoff)^[k + 1] e).backoff_time = 5 * 2 ^ k := by
  intro k
  induction k with
  | zero => simp [ScheduledEvent.apply_backoff, h]
  | succ k ih =>
    rw [Function.iterate_succ_apply']
    have hne : ((5 : Int) * 2 ^ k) ≠ 0 := by positivity
    have hb : (ScheduledEvent.apply_backoff
        ((ScheduledEvent.apply_backoff)^[k + 1] e)).backoff_time =
        if ((ScheduledEvent.apply_backoff)^[k + 1] e).backoff_time = 0 then 5
        else ((ScheduledEvent.apply_backoff)^[k + 1] e).backoff_time * 2 := rfl
    rw [hb, ih, if_neg hne]
    ring

/-- Backoff trace of the replier: starting from a zero backoff, the
backoff after the k plus first consecutive rate limited failure is
5 * 2 ^ k minutes and retries grows by one per failure. -/
theorem replier_backoff_trace (now : Int) (e : ReplyEvent)
    (h : e.backoff_time = 0) :
    ∀ k : Nat,
      ((ReplyEvent.apply_backoff now)^[k + 1] e).backoff_time = 5 * 2 ^ k ∧
      ((ReplyEvent.apply_backoff now)^[k + 1] e).retries =
        e.retries + (k + 1) := by
  intro k
  induction k with
  | zero => simp [ReplyEvent.apply_backoff, h]
  | succ k ih =>
    rw [Function.iterate_succ_apply']
    constructor
    · have hne : ((5 : Int) * 2 ^ k) ≠ 0 := by positivity
      have hb : (ReplyEvent.apply_backoff now
          ((ReplyEvent.apply_backoff now)^[k + 1] e)).backoff_time =
          if ((ReplyEvent.apply_backoff now)^[k + 1] e).backoff_time = 0 then 5
          else ((ReplyEvent.apply_backoff now)^[k + 1] e).backoff_time * 2 :=
        rfl
      rw [hb, ih.1, if_neg hne]
      ring
    · have hr : (ReplyEvent.apply_backoff now
          ((ReplyEvent.apply_backoff now)^[k + 1] e)).retries =
          ((ReplyEvent.apply_backoff now)^[k + 1] e).retries + 1 := rfl
      rw [hr, ih.2]
      omega

/-- C8 amended: in both implementations the backoff after the i-th
consecutive failure is 5 * 2 ^ (i - 1) minutes (stated with i = k + 1),
with the replier counting each rate limited failure in retries; after
the subsequent success both units set completed to true, but the
replier leaves retries at its reached value and removes the event, and
the poster resets backoff_time to 0 (it has no retry counter to
reset). -/
theorem c8_backoff_sequence (now : Int) (e0 : ReplyEvent)
    (pe0 : ScheduledEvent) (k : Nat) (rsend : ReplyEvent → ReplySendResult)
    (e : ReplyEvent) (send : String → PosterSendResult)
    (gen : String → Option String) (prev : String) (pe : ScheduledEvent)
    (h0 : e0.backoff_time = 0) (hp0 : pe0.backoff_time = 0)
    (h5 : e.completed = false) (h6 : e.scheduled_time ≤ now)
    (h7 : rsend e = ReplySendResult.success) (h8 : e.retries < e.max_retries)
    (hq1 : pe.completed = false) (hq2 : contentTruthy pe.content = true)
    (hq3 : pe.event_time ≤ now)
    (hq4 : send (contentStr pe.content) = PosterSendResult.success) :
    ((ReplyEvent.apply_backoff now)^[k + 1] e0).backoff_time = 5 * 2 ^ k ∧
    ((ReplyEvent.apply_backoff now)^[k + 1] e0).retries =
      e0.retries + (k + 1) ∧
    ((ScheduledEvent.apply_backoff)^[k + 1] pe0).backoff_time = 5 * 2 ^ k ∧
    (processReplyEvent false now rsend e).event.completed = true ∧
    (processReplyEvent false now rsend e).event.retries = e.retries ∧
    (processReplyEvent false now rsend e).kept = false ∧
    (processEvent false now gen send prev pe).event.completed = true ∧
    (processEvent false now gen send prev pe).event.backoff_time = 0 := by
  have hsucc : processReplyEvent false now rsend e =
      { event := { e with completed := true }, kept := false,
        attempted := true, err := none } := by
    simp [processReplyEvent, h5, h6, h7, Nat.not_le.mpr h8]
  have hpost : processEvent false now gen send prev pe =
      { event := { pe with completed := true, backoff_time := 0 },
        prev := contentStr pe.content, attempted := true } := by
    simp [processEvent, hq1, hq2, hq3, hq4]
  refine ⟨(replier_backoff_trace now e0 h0 k).1,
    (replier_backoff_trace now e0 h0 k).2,
    poster_backoff_trace pe0 hp0 k,
    by rw [hsucc], by rw [hsucc], by rw [hsucc],
    by rw [hpost], by rw [hpost]⟩

/-- Witness for C8 amended at a concrete two-failure trace followed by
success. -/
theorem c8_witness :
    ((ReplyEvent.apply_backoff 100)^[2 + 1]
        { target_account := "a", tweet_id := "1", content := some "c",
          scheduled_time := 0,
          original_tweet_text := "t" }).backoff_time = 5 * 2 ^ 2 ∧
    ((ReplyEvent.apply_backoff 100)^[2 + 1]
        { target_account := "a", tweet_id := "1", content := some "c",
          scheduled_time := 0, original_tweet_text := "t" }).retries =
      ({ target_account := "a", tweet_id := "1", content := some "c",
         scheduled_time := 0,
         original_tweet_text := "t" } : ReplyEvent).retries + (2 + 1) ∧
    ((ScheduledEvent.apply_backoff)^[2 + 1]
        { event_time := 0 }).backoff_time = 5 * 2 ^ 2 ∧
    (processReplyEvent false 100 (fun _ => ReplySendResult.success)
        { target_account := "a", tweet_id := "1", content := some "c",
          scheduled_time := 0, original_tweet_text := "t", retries := 2,
          backoff_time := 10 }).event.completed = true ∧
    (processReplyEvent false 100 (fun _ => ReplySendResult.success)
        { target_account := "a", tweet_id := "1", content := some "c",
          scheduled_time := 0, original_tweet_text := "t", retries := 2,
          backoff_time := 10 }).event.retries =
      ({ target_account := "a", tweet_id := "1", content := some "c",
         scheduled_time := 0, original_tweet_text := "t", retries := 2,
         backoff_time := 10 } : ReplyEvent).retries ∧
    (processReplyEvent false 100 (fun _ => ReplySendResult.success)
        { target_account := "a", tweet_id := "1", content := some "c",
          scheduled_time := 0, original_tweet_text := "t", retries := 2,
          backoff_time := 10 }).kept = false ∧
    (processEvent false 100 genConstX (fun _ => PosterSendResult.success) ""
        { event_time := 0, content := some "x",
          backoff_time := 20 }).event.completed = true ∧
    (processEvent false 100 genConstX (fun _ => PosterSendResult.success) ""
        { event_time := 0, content := some "x",
          backoff_time := 20 }).event.backoff_time = 0 :=
  c8_backoff_sequence 100
    { target_account := "a", tweet_id := "1", content := some "c",
      scheduled_time := 0, original_tweet_text := "t" }
    { event_time := 0 } 2 (fun _ => ReplySendResult.success)
    { target_account := "a", tweet_id := "1", content := some "c",
      scheduled_time := 0, original_tweet_text := "t", retries := 2,
      backoff_time := 10 }
    (fun _ => PosterSendResult.success) genConstX ""
    { event_time := 0, content := some "x", backoff_time := 20 }
    (by decide) (by decide) (by decide) (by decide) rfl (by decide)
    (by decide) (by decide) (by decide) rfl

end MofBot
